import Mathlib

/-!
A shallow embedding of the qavo-scanner scan orchestration core
(ScanOrchestrator plus the five ScannerModule variants), translated from the
TypeScript source, together with proofs settling the frozen claims about it.

Conventions of the embedding:
* JS numbers that only ever hold integers are modelled as `Int`/`Nat`;
  the progress values (which involve the division `completedTests/totalTests`)
  are modelled as `ℚ`.
* Database calls through the supabase client resolve with an error *value*
  rather than rejecting, so in the model they never throw; page/browser calls
  can throw and are the fault points of a scanner body.
* Every issue object the modules push carries one of the four severity
  strings "critical", "high", "medium", "low", so severity is modelled as a
  closed inductive type (the orchestrator's weight-table fallback for an
  out-of-table severity is unreachable).
-/

namespace QavoScanner

/-- Severity of an issue; the closed set of values the scanner modules emit. -/
inductive Severity
  | critical
  | high
  | medium
  | low
deriving DecidableEq, Repr

/-- The part of an issue record the orchestrator inspects: its title and
severity (the modules return bare objects carrying the severity). -/
structure Issue where
  title : String
  severity : Severity
deriving DecidableEq, Repr

/-- The severity weight table of ScanOrchestrator.calculateOverallScore:
critical 20, high 10, medium 5, low 2. -/
def severityWeight : Severity → Int
  | .critical => 20
  | .high => 10
  | .medium => 5
  | .low => 2

/-- ScanOrchestrator.calculateOverallScore: sums the weights of all issues
with reduce and returns max(0, 100 - deduction). -/
def calculateOverallScore (issues : List Issue) : Int :=
  max 0 (100 - issues.foldl (fun sum i => sum + severityWeight i.severity) 0)

/-! ## The shared scanner-module skeleton

All five scanner modules have the identical shape: create a TestRun row
(status running), run a sequence of page-interaction steps each of which may
throw and otherwise records some issues into the `issues` array, mark the
TestRun completed, and catch any exception by marking the TestRun failed if
it was created; the `issues` array accumulated so far is returned in every
case. -/

/-- Status of a qa_tests row. -/
inductive TRStatus
  | running
  | completed
  | failed
deriving DecidableEq, Repr

/-- One page-interaction step of a scanner body: the await either throws, or
returns and the issues of that check are recorded. -/
inductive StepOutcome
  | ok (issues : List Issue)
  | throwErr
deriving DecidableEq, Repr

/-- The issues a body records before its first throwing step (all of them
when no step throws). -/
def issuesBefore : List StepOutcome → List Issue
  | [] => []
  | .ok is :: rest => is ++ issuesBefore rest
  | .throwErr :: _ => []

/-- Whether some step of the body throws. -/
def hasThrow : List StepOutcome → Bool
  | [] => false
  | .ok _ :: rest => hasThrow rest
  | .throwErr :: _ => true

/-- What a scanner module's scan call leaves behind: the issue list it
returns to the orchestrator and the final status of its qa_tests row
(`none` when the row was never created). -/
structure ModuleOutcome where
  issues : List Issue
  testRun : Option TRStatus
deriving DecidableEq, Repr

/-- Running the body's steps, threading the `issues` accumulator; a throw
carries the accumulator out of the try block (the array outlives it). -/
def runStepsE : List StepOutcome → List Issue → Except (List Issue) (List Issue)
  | [], acc => .ok acc
  | .ok is :: rest, acc => runStepsE rest (acc ++ is)
  | .throwErr :: _, acc => .error acc

/-- The try-block of a scanner's scan: create the TestRun (a failed insert
makes the module throw its own Error before testId is set), run the steps,
mark the TestRun completed. An escaping error carries the issues recorded so
far and whether testId had been set. -/
def moduleScanTry (createOk : Bool) (steps : List StepOutcome) :
    Except (List Issue × Bool) ModuleOutcome :=
  if createOk then
    match runStepsE steps [] with
    | .ok issues => .ok ⟨issues, some .completed⟩
    | .error issues => .error (issues, true)
  else .error ([], false)

/-- A scanner's full scan call: the catch block marks the TestRun failed iff
testId was set, and the accumulated issues are returned either way. -/
def moduleScan (createOk : Bool) (steps : List StepOutcome) : ModuleOutcome :=
  match moduleScanTry createOk steps with
  | .ok r => r
  | .error e => ⟨e.1, if e.2 then some .failed else none⟩

/-- The scan call as an Except-computation: the try body with its catch
handler attached (the handler's database write resolves with an error value
at worst, so the handler itself does not throw). -/
def moduleScanE (createOk : Bool) (steps : List StepOutcome) :
    Except (List Issue × Bool) ModuleOutcome :=
  match moduleScanTry createOk steps with
  | .ok r => .ok r
  | .error e => .ok ⟨e.1, if e.2 then some .failed else none⟩

/-! ## SEOScanner -/

/-- The page data the SEO scanner reads: the document title, the content
attribute of each meta[name=description] element (none = attribute absent),
and the number of h1 elements. -/
structure SEOPage where
  title : String
  metaContents : List (Option String)
  h1Count : Nat

/-- SEOScanner title check: empty title (falsy) is missing; a title longer
than 60 characters is too long. -/
def titleIssues (title : String) : List Issue :=
  if title = "" then [⟨"Missing Title Tag", .high⟩]
  else if title.length > 60 then [⟨"Title Tag Too Long", .medium⟩]
  else []

/-- The issue the SEO scanner records for a missing meta description. -/
def missingMetaIssue : Issue := ⟨"Missing Meta Description", .high⟩

/-- SEOScanner meta check on the first element's content attribute: a null
or empty (falsy) content is missing; content longer than 160 characters is
too long. -/
def metaContentIssues : Option String → List Issue
  | none => [missingMetaIssue]
  | some d =>
    if d = "" then [missingMetaIssue]
    else if d.length > 160 then [⟨"Meta Description Too Long", .medium⟩]
    else []

/-- SEOScanner h1 check: zero h1 elements is missing (high); more than one
is multiple (medium). -/
def h1Issues (n : Nat) : List Issue :=
  if n = 0 then [⟨"Missing H1 Tag", .high⟩]
  else if n > 1 then [⟨"Multiple H1 Tags", .medium⟩]
  else []

/-- A page-interaction step: either its await throws, or its issues are
recorded. -/
def stepOf (throws : Bool) (issues : List Issue) : StepOutcome :=
  if throws then .throwErr else .ok issues

/-- The meta-description part of the SEO body: the count() await may throw;
a count of zero records the missing issue with no further await; otherwise
getAttribute on the first element may throw before its issues are recorded. -/
def seoMetaSteps (metas : List (Option String)) (countThrows attrThrows : Bool) :
    List StepOutcome :=
  if countThrows then [.throwErr]
  else
    match metas with
    | [] => [.ok [missingMetaIssue]]
    | c :: _ => [stepOf attrThrows (metaContentIssues c)]

/-- The SEO scanner body: title check (fault 0), meta check (faults 1 and 2),
h1 count check (fault 3). -/
def seoSteps (pg : SEOPage) (f : Nat → Bool) : List StepOutcome :=
  stepOf (f 0) (titleIssues pg.title) ::
    (seoMetaSteps pg.metaContents (f 1) (f 2) ++ [stepOf (f 3) (h1Issues pg.h1Count)])

/-- SEOScanner.scan. -/
def seoScan (pg : SEOPage) (createOk : Bool) (f : Nat → Bool) : ModuleOutcome :=
  moduleScan createOk (seoSteps pg f)

/-- The fault schedule of a run where no page call throws. -/
def noFault : Nat → Bool := fun _ => false

/-- The issues the SEO scanner records on a fault-free run, as a function of
the page: title issues, then meta issues, then h1 issues. -/
def seoMetaIssues : List (Option String) → List Issue
  | [] => [missingMetaIssue]
  | c :: _ => metaContentIssues c

/-! ## SecurityScanner -/

/-- The response headers the security scanner reads after its re-navigation
(a null response yields an empty header object, i.e. both absent). -/
structure SecurityResponse where
  hasCSP : Bool
  hasXFO : Bool
deriving DecidableEq, Repr

/-- JS String.prototype.startsWith, on the character sequence. -/
def jsStartsWith (s pre : String) : Bool :=
  s.data.take pre.data.length == pre.data

/-- The three security checks: the literal prefix test url.startsWith("https")
gates the No HTTPS issue; each absent header yields its medium issue. -/
def securityIssues (url : String) (resp : SecurityResponse) : List Issue :=
  (if jsStartsWith url "https" then [] else [⟨"No HTTPS", .high⟩]) ++
    (if resp.hasCSP then [] else [⟨"Missing Content-Security-Policy Header", .medium⟩]) ++
    (if resp.hasXFO then [] else [⟨"Missing X-Frame-Options Header", .medium⟩])

/-- The security body: the re-navigation goto may throw; afterwards the three
checks run without further page awaits. -/
def securitySteps (url : String) (resp : SecurityResponse) (gotoThrows : Bool) :
    List StepOutcome :=
  if gotoThrows then [.throwErr] else [.ok (securityIssues url resp)]

/-- SecurityScanner.scan. -/
def securityScan (url : String) (resp : SecurityResponse)
    (createOk gotoThrows : Bool) : ModuleOutcome :=
  moduleScan createOk (securitySteps url resp gotoThrows)

/-- The scheme of a URL string: the characters before the first colon. -/
def urlScheme (url : String) : String := ⟨url.data.takeWhile (fun c => c != ':')⟩

/-! ## ScanOrchestrator -/

/-- The settings.tests object: one enable flag per scanner module. -/
structure TestsConfig where
  performance : Bool
  accessibility : Bool
  seo : Bool
  security : Bool
  best_practices : Bool
deriving DecidableEq, Repr

/-- The default when the request carries no settings.tests: all modules
enabled. -/
def defaultTests : TestsConfig := ⟨true, true, true, true, true⟩

/-- testsToRun = settings.tests or the default. -/
def resolveTests : Option TestsConfig → TestsConfig
  | some t => t
  | none => defaultTests

/-- Object.values of the tests object, in declaration order. -/
def flagsList (t : TestsConfig) : List Bool :=
  [t.performance, t.accessibility, t.seo, t.security, t.best_practices]

/-- totalTests = Object.values(testsToRun).filter(v => v).length. -/
def enabledCount (t : TestsConfig) : Nat := (flagsList t).count true

/-- The outcome of each module's scan call, as seen by the orchestrator. -/
structure ModuleResults where
  performance : ModuleOutcome
  accessibility : ModuleOutcome
  seo : ModuleOutcome
  security : ModuleOutcome
  best_practices : ModuleOutcome

/-- allIssues: the concatenation, in module order, of the issue lists the
enabled modules return (disabled modules are never invoked). -/
def collectIssues (t : TestsConfig) (m : ModuleResults) : List Issue :=
  (if t.performance then m.performance.issues else []) ++
    (if t.accessibility then m.accessibility.issues else []) ++
    (if t.seo then m.seo.issues else []) ++
    (if t.security then m.security.issues else []) ++
    (if t.best_practices then m.best_practices.issues else [])

/-- The summary object the orchestrator persists on completion. -/
structure Summary where
  totalIssues : Nat
  criticalIssues : Nat
  overallScore : Int
  completedTests : Nat
  totalTests : Nat
deriving DecidableEq, Repr

/-- The summary computed by performCompleteScan: issue counts over allIssues
and the overall score; the source assigns the totalTests count to both the
completedTests and totalTests fields. -/
def mkSummary (t : TestsConfig) (m : ModuleResults) : Summary :=
  let allIssues := collectIssues t m
  let criticalCount := (allIssues.filter (fun i => i.severity == Severity.critical)).length
  let highCount := (allIssues.filter (fun i => i.severity == Severity.high)).length
  { totalIssues := allIssues.length
    criticalIssues := criticalCount + highCount
    overallScore := calculateOverallScore allIssues
    completedTests := enabledCount t
    totalTests := enabledCount t }

/-- Status of a qa_scans row. -/
inductive ScanStatus
  | queued
  | running
  | completed
  | failed
deriving DecidableEq, Repr

/-- One update written to the qa_scans row: updateScanStatus writes status
and progress; completeScan writes status completed and progress 100;
failScan writes status failed and no progress. -/
structure StatusUpdate where
  status : ScanStatus
  progress : Option ℚ
deriving DecidableEq, Repr

/-- The progress written after a module finishes: 10 plus the fraction
completedTests/totalTests of an 80-point band. -/
def moduleProgress (k n : Nat) : ℚ := 10 + ((k : ℚ) / (n : ℚ)) * 80

/-- The status updates written by the per-module blocks: each enabled module
increments completedTests and writes its progress; disabled modules write
nothing. -/
def moduleUpdates : List Bool → Nat → Nat → List StatusUpdate
  | [], _, _ => []
  | true :: rest, done, n =>
    ⟨.running, some (moduleProgress (done + 1) n)⟩ :: moduleUpdates rest (done + 1) n
  | false :: rest, done, n => moduleUpdates rest done n

/-- The full sequence of qa_scans updates of a successful scan: running at
progress 0, running at progress 5 after navigation, one update per enabled
module, and the completion update at progress 100. -/
def scanTrace (t : TestsConfig) : List StatusUpdate :=
  ⟨.running, some 0⟩ :: ⟨.running, some 5⟩ ::
    (moduleUpdates (flagsList t) 0 (enabledCount t) ++ [⟨.completed, some 100⟩])

/-- The update traces one scan can write: either the successful trace, or a
prefix of it followed by the failScan update (an orchestrator-level
exception aborts the remaining steps and the top-level catch runs failScan,
which writes no progress). -/
inductive ScanRun (t : TestsConfig) : List StatusUpdate → Prop
  | success : ScanRun t (scanTrace t)
  | failure (k : Nat) : ScanRun t ((scanTrace t).take k ++ [⟨.failed, none⟩])

/-- The progress values actually written by a trace, in order. -/
def progressWrites (tr : List StatusUpdate) : List ℚ :=
  tr.filterMap (fun u => u.progress)

/-- The qa_scans row completeScan leaves behind. -/
structure ScanRow where
  status : ScanStatus
  progress : ℚ
  summary : Option Summary
deriving Repr

/-- completeScan: status completed, progress 100, the computed summary. -/
def completeScanRow (t : TestsConfig) (m : ModuleResults) : ScanRow :=
  ⟨.completed, 100, some (mkSummary t m)⟩

/-! ## Concrete inputs used by the counterexamples and witnesses -/

/-- A page used by counterexamples and witnesses of the error-containment
claims: empty title, no meta description element, two h1 elements. -/
def errPage : SEOPage := ⟨"", [], 2⟩

/-- A fault schedule where the meta-description count() await throws. -/
def metaCountFault : Nat → Bool := fun n => n == 1

/-- A settings.tests object with every module flag false. -/
def noTests : TestsConfig := ⟨false, false, false, false, false⟩

/-- A settings.tests object enabling only the performance module. -/
def perfOnly : TestsConfig := ⟨true, false, false, false, false⟩

/-- The end-to-end scenario's settings: exactly SEO and Security enabled. -/
def c2Tests : TestsConfig := ⟨false, false, true, true, false⟩

/-- The end-to-end scenario's page: empty title, no meta-description
element, two h1 elements. -/
def c2Page : SEOPage := ⟨"", [], 2⟩

/-- The end-to-end scenario's target URL, served over http. -/
def c2Url : String := "http://example.com"

/-- The outcome slot of a module that was never invoked. -/
def emptyOutcome : ModuleOutcome := ⟨[], none⟩

/-- The module results of the end-to-end scenario: the SEO scanner on the
page and the Security scanner on the http URL with neither security header
present. -/
def c2Results : ModuleResults :=
  ⟨emptyOutcome, emptyOutcome, seoScan c2Page true noFault,
    securityScan c2Url ⟨false, false⟩ true false, emptyOutcome⟩

/-- A page whose title is exactly 61 characters long. -/
def c8LongTitlePage : SEOPage :=
  ⟨"Comprehensive guide to building fast and accessible web pages", [some "d"], 1⟩

/-- A page with an empty title. -/
def c8EmptyTitlePage : SEOPage := ⟨"", [some "d"], 1⟩

/-- A page with exactly one h1 element. -/
def c8OneH1Page : SEOPage := ⟨"ok", [some "d"], 1⟩

/-! ## Helper lemmas: the scanner-module skeleton -/

lemma runStepsE_spec (steps : List StepOutcome) (acc : List Issue) :
    runStepsE steps acc =
      if hasThrow steps then .error (acc ++ issuesBefore steps)
      else .ok (acc ++ issuesBefore steps) := by
  induction steps generalizing acc with
  | nil => simp [runStepsE, hasThrow, issuesBefore]
  | cons s rest ih =>
    cases s with
    | ok is => simp [runStepsE, hasThrow, issuesBefore, ih]
    | throwErr => simp [runStepsE, hasThrow, issuesBefore]

lemma moduleScan_spec (c : Bool) (steps : List StepOutcome) :
    moduleScan c steps =
      if c then
        (if hasThrow steps then ⟨issuesBefore steps, some TRStatus.failed⟩
         else ⟨issuesBefore steps, some TRStatus.completed⟩)
      else ⟨[], none⟩ := by
  unfold moduleScan moduleScanTry
  rw [runStepsE_spec]
  rcases c with _ | _ <;> rcases h : hasThrow steps <;> simp [h]

lemma moduleScanE_ok (c : Bool) (steps : List StepOutcome) :
    moduleScanE c steps = Except.ok (moduleScan c steps) := by
  unfold moduleScanE moduleScan
  rcases moduleScanTry c steps with r | e <;> rfl

/-! ## C3 and C4: module error containment -/

/-- Claim C3 counterexample: when the TestRun insert returns no row, the SEO
scanner raises its own internal exception inside the try block, yet no
TestRun is marked failed — none was ever created. -/
theorem claim3_creation_failure_unmarked :
    (moduleScanTry false (seoSteps errPage noFault)).isOk = false ∧
      (seoScan errPage false noFault).testRun = none ∧
      (seoScan errPage false noFault).issues = [] := by
  decide

/-- C3 (amended): a scanner's scan call never lets an exception escape (the
computation with the catch handler attached always returns ok); on an
internal exception after the TestRun was created it marks the TestRun failed
and returns exactly the issues recorded before the exception; when the
TestRun creation itself fails it returns no issues and no TestRun row
exists to mark. -/
theorem module_scan_contract (c : Bool) (steps : List StepOutcome) :
    moduleScanE c steps = Except.ok (moduleScan c steps) ∧
      moduleScan c steps =
        (if c then
          (if hasThrow steps then ⟨issuesBefore steps, some TRStatus.failed⟩
           else ⟨issuesBefore steps, some TRStatus.completed⟩)
         else ⟨[], none⟩) :=
  ⟨moduleScanE_ok c steps, moduleScan_spec c steps⟩

/-- Claim C4 counterexample: the SEO scanner on a page with an empty title
records the Missing Title Tag issue, then hits an internal error at the
meta-description count; its scan call returns that one issue, not an empty
list. -/
theorem claim4_partial_issues_returned :
    hasThrow (seoSteps errPage metaCountFault) = true ∧
      (seoScan errPage true metaCountFault).issues =
        [⟨"Missing Title Tag", Severity.high⟩] ∧
      (seoScan errPage true metaCountFault).issues ≠ [] := by
  decide

/-- C4 (amended): a module whose body hits an internal error contributes to
the orchestrator exactly the issues it recorded before the error — an empty
list only when the error preceded the first recorded issue. -/
theorem module_error_issues (steps : List StepOutcome)
    (h : hasThrow steps = true) :
    (moduleScan true steps).issues = issuesBefore steps := by
  rw [moduleScan_spec, if_pos rfl, if_pos h]

theorem module_error_issues_witness :
    hasThrow (seoSteps errPage metaCountFault) = true ∧
      (moduleScan true (seoSteps errPage metaCountFault)).issues =
        issuesBefore (seoSteps errPage metaCountFault) :=
  ⟨by decide, module_error_issues (seoSteps errPage metaCountFault) (by decide)⟩

/-! ## C1: the overall score formula -/

lemma foldl_severityWeight (issues : List Issue) (a : Int) :
    issues.foldl (fun sum i => sum + severityWeight i.severity) a =
      a + (issues.map (fun i => severityWeight i.severity)).sum := by
  induction issues generalizing a with
  | nil => simp
  | cons i rest ih => simp [ih, add_assoc]

/-- C1: the overall score the orchestrator stores in the summary equals
max(0, 100 minus the sum of the severity weights of all issues collected
from the enabled modules), and for an empty issue list the score is exactly
100. -/
theorem overall_score_formula (t : TestsConfig) (m : ModuleResults) :
    (mkSummary t m).overallScore =
      max 0 (100 - ((collectIssues t m).map (fun i => severityWeight i.severity)).sum) ∧
      calculateOverallScore [] = 100 := by
  constructor
  · simp [mkSummary, calculateOverallScore, foldl_severityWeight]
  · decide

/-! ## C5: test counts in the completed summary -/

/-- C5: whatever the modules returned — including outcomes whose TestRun was
marked failed — the summary persisted at the completed terminal state
records totalTests and completedTests both equal to the number of enabled
modules. -/
theorem completed_summary_test_counts (t : TestsConfig) (m : ModuleResults) :
    (completeScanRow t m).status = ScanStatus.completed ∧
      (completeScanRow t m).summary = some (mkSummary t m) ∧
      (mkSummary t m).totalTests = enabledCount t ∧
      (mkSummary t m).completedTests = enabledCount t :=
  ⟨rfl, rfl, rfl, rfl⟩

/-! ## C10: a scan with zero enabled modules -/

/-- C10: with a caller-supplied tests object whose flags are all false, no
module runs (the module-progress band writes nothing, so the expression
dividing by the enabled-module count is never evaluated), the scan reaches
the completed state, and the summary records zero issues, zero tests and an
overall score of 100. -/
theorem zero_modules_scan (m : ModuleResults) :
    resolveTests (some noTests) = noTests ∧
      enabledCount noTests = 0 ∧
      moduleUpdates (flagsList noTests) 0 (enabledCount noTests) = [] ∧
      scanTrace noTests =
        [⟨.running, some 0⟩, ⟨.running, some 5⟩, ⟨.completed, some 100⟩] ∧
      (completeScanRow noTests m).status = ScanStatus.completed ∧
      mkSummary noTests m =
        { totalIssues := 0, criticalIssues := 0, overallScore := 100,
          completedTests := 0, totalTests := 0 } := by
  refine ⟨rfl, rfl, rfl, rfl, rfl, ?_⟩
  simp [mkSummary, collectIssues, noTests, enabledCount, flagsList]
  decide

/-! ## Helper lemmas: the progress trace -/

lemma moduleUpdates_eq (flags : List Bool) (done n : Nat) :
    moduleUpdates flags done n =
      (List.range (flags.count true)).map
        (fun i => ⟨.running, some (moduleProgress (done + (i + 1)) n)⟩) := by
  induction flags generalizing done with
  | nil => simp [moduleUpdates]
  | cons b rest ih =>
    cases b with
    | false => simp [moduleUpdates, ih, List.count_cons]
    | true =>
      rw [moduleUpdates, ih, List.count_cons_self, List.range_succ_eq_map,
        List.map_cons, List.map_map]
      congr 1
      refine List.map_congr_left fun i hi => ?_
      have harith : done + 1 + (i + 1) = done + (Nat.succ i + 1) := by omega
      simp [Function.comp, harith]

lemma count_true_flags (t : TestsConfig) :
    (flagsList t).count true = enabledCount t := rfl

lemma filterMap_progress_map (f : Nat → ℚ) (l : List Nat) :
    List.filterMap (fun u => u.progress)
      (l.map (fun i => (⟨ScanStatus.running, some (f i)⟩ : StatusUpdate))) =
      l.map f := by
  induction l with
  | nil => rfl
  | cons a l ih => simp [ih]

lemma progressWrites_scanTrace (t : TestsConfig) :
    progressWrites (scanTrace t) =
      0 :: 5 :: ((List.range (enabledCount t)).map
          (fun i => moduleProgress (i + 1) (enabledCount t)) ++ [100]) := by
  unfold progressWrites scanTrace
  rw [moduleUpdates_eq, count_true_flags]
  simp only [List.filterMap_cons, List.filterMap_append, filterMap_progress_map]
  simp

lemma moduleProgress_mono {k l n : Nat} (h : k ≤ l) :
    moduleProgress k n ≤ moduleProgress l n := by
  unfold moduleProgress
  have h1 : (k : ℚ) / n ≤ (l : ℚ) / n :=
    div_le_div_of_nonneg_right (by exact_mod_cast h) (by positivity)
  nlinarith

lemma moduleProgress_ge (k n : Nat) : 10 ≤ moduleProgress k n := by
  unfold moduleProgress
  have h1 : 0 ≤ (k : ℚ) / n := by positivity
  nlinarith

lemma moduleProgress_le {k n : Nat} (h : k ≤ n) (hn : 0 < n) :
    moduleProgress k n ≤ 90 := by
  unfold moduleProgress
  have hn' : (0 : ℚ) < n := by exact_mod_cast hn
  have h1 : (k : ℚ) / n ≤ 1 := (div_le_one hn').mpr (by exact_mod_cast h)
  nlinarith

lemma trace_writes_pairwise (t : TestsConfig) :
    (progressWrites (scanTrace t)).Pairwise (· ≤ ·) := by
  rw [progressWrites_scanTrace]
  have hmem : ∀ x ∈ (List.range (enabledCount t)).map
      (fun i => moduleProgress (i + 1) (enabledCount t)), 10 ≤ x ∧ x ≤ 90 := by
    intro x hx
    rcases List.mem_map.mp hx with ⟨i, hi, rfl⟩
    have hi' := List.mem_range.mp hi
    exact ⟨moduleProgress_ge _ _, moduleProgress_le (by omega) (by omega)⟩
  refine List.pairwise_cons.mpr ⟨?_, List.pairwise_cons.mpr ⟨?_, ?_⟩⟩
  · intro x hx
    rcases List.mem_cons.mp hx with rfl | hx
    · norm_num
    rcases List.mem_append.mp hx with hx | hx
    · linarith [(hmem x hx).1]
    · rcases List.mem_singleton.mp hx with rfl; norm_num
  · intro x hx
    rcases List.mem_append.mp hx with hx | hx
    · linarith [(hmem x hx).1]
    · rcases List.mem_singleton.mp hx with rfl; norm_num
  · refine List.pairwise_append.mpr ⟨?_, by simp, ?_⟩
    · refine List.pairwise_map.mpr ?_
      exact (List.pairwise_lt_range _).imp fun h => moduleProgress_mono (by omega)
    · intro x hx y hy
      rcases List.mem_singleton.mp hy with rfl
      linarith [(hmem x hx).2]

lemma trace_hundred_completed (t : TestsConfig) :
    ∀ u ∈ scanTrace t, u.progress = some 100 → u.status = ScanStatus.completed := by
  unfold scanTrace
  rw [moduleUpdates_eq, count_true_flags]
  intro u hu hp
  rcases List.mem_cons.mp hu with rfl | hu
  · norm_num at hp
  rcases List.mem_cons.mp hu with rfl | hu
  · norm_num at hp
  rcases List.mem_append.mp hu with hu | hu
  · rcases List.mem_map.mp hu with ⟨i, hi, rfl⟩
    have hi' := List.mem_range.mp hi
    simp only [Option.some.injEq] at hp
    have hle : moduleProgress (0 + (i + 1)) (enabledCount t) ≤ 90 :=
      moduleProgress_le (by omega) (by omega)
    rw [hp] at hle
    norm_num at hle
  · rcases List.mem_singleton.mp hu with rfl; rfl

/-! ## C6: the progress band allocation -/

/-- Claim C6 counterexample: with one enabled module the claim's formula
X + (k/N)(100 - X) predicts progress 100 after the last module whatever the
checkpoint X is (with the code's actual post-navigation checkpoint X = 5 it
predicts 5 + (1/1)(100 - 5) = 100), but the trace written by the
orchestrator reaches only 90 before the completion snap. -/
theorem claim6_band_misses_hundred :
    scanTrace perfOnly =
      [⟨.running, some 0⟩, ⟨.running, some 5⟩, ⟨.running, some 90⟩,
        ⟨.completed, some 100⟩] ∧
      (5 : ℚ) + ((1 : ℚ) / (1 : ℚ)) * (100 - 5) = 100 ∧
      (90 : ℚ) ≠ 100 := by
  refine ⟨?_, by norm_num, by norm_num⟩
  norm_num [scanTrace, moduleUpdates, flagsList, enabledCount, moduleProgress,
    perfOnly]

/-- C6 (amended): after successful navigation the orchestrator sets progress
to the fixed checkpoint 5; the per-module band starts at 10, and after the
k-th of N enabled modules progress equals 10 + (k/N)*80 — so it reaches 90,
not 100, after the last module — with a final snap to exactly 100 on
completion. -/
theorem progress_band (t : TestsConfig) :
    progressWrites (scanTrace t) =
      0 :: 5 :: ((List.range (enabledCount t)).map
          (fun i => moduleProgress (i + 1) (enabledCount t)) ++ [100]) :=
  progressWrites_scanTrace t

/-! ## C7: progress monotonicity and terminality -/

/-- C7: over any trace one scan can write — the successful trace or any
failure-truncated one — the progress values written are non-decreasing, and
an update writing progress exactly 100 always carries a terminal status. -/
theorem scan_progress_properties (t : TestsConfig) (tr : List StatusUpdate)
    (h : ScanRun t tr) :
    (progressWrites tr).Pairwise (· ≤ ·) ∧
      ∀ u ∈ tr, u.progress = some 100 →
        (u.status = ScanStatus.completed ∨ u.status = ScanStatus.failed) := by
  cases h with
  | success =>
    exact ⟨trace_writes_pairwise t,
      fun u hu hp => Or.inl (trace_hundred_completed t u hu hp)⟩
  | failure k =>
    constructor
    · have heq : progressWrites ((scanTrace t).take k ++ [⟨.failed, none⟩]) =
          progressWrites ((scanTrace t).take k) := by
        unfold progressWrites
        rw [List.filterMap_append]
        simp
      rw [heq]
      exact (trace_writes_pairwise t).sublist
        ((List.take_sublist k (scanTrace t)).filterMap _)
    · intro u hu hp
      rcases List.mem_append.mp hu with hu | hu
      · exact Or.inl (trace_hundred_completed t u
          ((List.take_sublist k (scanTrace t)).subset hu) hp)
      · rcases List.mem_singleton.mp hu with rfl
        simp at hp

theorem scan_progress_properties_witness :
    (progressWrites (scanTrace defaultTests)).Pairwise (· ≤ ·) ∧
      ∀ u ∈ scanTrace defaultTests, u.progress = some 100 →
        (u.status = ScanStatus.completed ∨ u.status = ScanStatus.failed) :=
  scan_progress_properties defaultTests (scanTrace defaultTests) ScanRun.success

/-! ## C2: the end-to-end SEO + Security scenario -/

/-- Claim C2 counterexample: on the described page the SEO module emits
2 high + 1 medium (three checks, three issues — not 2 high + 2 medium), so
the aggregate is 3 high + 3 medium and the overall score is 55, not 50. -/
theorem claim2_score_not_fifty :
    ((collectIssues c2Tests c2Results).filter
        (fun i => i.severity == Severity.medium)).length = 3 ∧
      (mkSummary c2Tests c2Results).overallScore = 55 ∧
      (mkSummary c2Tests c2Results).overallScore ≠ 50 := by
  decide

/-! ## Helper lemmas: SEO and Security issue lists -/

lemma seoScan_noFault (pg : SEOPage) :
    (seoScan pg true noFault).issues =
      titleIssues pg.title ++ (seoMetaIssues pg.metaContents ++ h1Issues pg.h1Count) := by
  cases hm : pg.metaContents with
  | nil =>
    simp [seoScan, moduleScan, moduleScanTry, runStepsE, seoSteps, seoMetaSteps,
      stepOf, noFault, seoMetaIssues, hm]
  | cons c rest =>
    simp [seoScan, moduleScan, moduleScanTry, runStepsE, seoSteps, seoMetaSteps,
      stepOf, noFault, seoMetaIssues, hm]

lemma titleIssues_titles (s : String) :
    ∀ i ∈ titleIssues s,
      i.title = "Missing Title Tag" ∨ i.title = "Title Tag Too Long" := by
  unfold titleIssues
  split_ifs <;> simp

lemma seoMetaIssues_titles (ms : List (Option String)) :
    ∀ i ∈ seoMetaIssues ms,
      i.title = "Missing Meta Description" ∨ i.title = "Meta Description Too Long" := by
  cases ms with
  | nil => simp [seoMetaIssues, missingMetaIssue]
  | cons c rest =>
    cases c with
    | none => simp [seoMetaIssues, metaContentIssues, missingMetaIssue]
    | some d =>
      simp only [seoMetaIssues, metaContentIssues]
      split_ifs <;> simp [missingMetaIssue]

lemma h1Issues_titles (n : Nat) :
    ∀ i ∈ h1Issues n, i.title = "Missing H1 Tag" ∨ i.title = "Multiple H1 Tags" := by
  unfold h1Issues
  split_ifs <;> simp

lemma securityScan_noFault (url : String) (resp : SecurityResponse) :
    (securityScan url resp true false).issues = securityIssues url resp := by
  simp [securityScan, moduleScan, moduleScanTry, securitySteps, runStepsE]

/-! ## C8: the SEO title and h1 behaviours -/

/-- C8: with the TestRun created and no faults, a page whose title has
length 61 yields exactly one medium Title Tag Too Long issue; a page with an
empty title yields exactly one high Missing Title Tag issue; a page with
exactly one h1 element yields no H1-related issue. -/
theorem seo_title_h1_checks (p1 p2 p3 : SEOPage)
    (h61 : p1.title.length = 61) (hempty : p2.title = "") (hone : p3.h1Count = 1) :
    (seoScan p1 true noFault).issues.filter
        (fun i => i.title == "Title Tag Too Long") =
        [⟨"Title Tag Too Long", Severity.medium⟩] ∧
      (seoScan p2 true noFault).issues.filter
        (fun i => i.title == "Missing Title Tag") =
        [⟨"Missing Title Tag", Severity.high⟩] ∧
      (seoScan p3 true noFault).issues.filter
        (fun i => i.title == "Missing H1 Tag" || i.title == "Multiple H1 Tags") =
        [] := by
  refine ⟨?_, ?_, ?_⟩
  · rw [seoScan_noFault, List.filter_append, List.filter_append]
    have hne : p1.title ≠ "" := by
      intro h
      rw [h] at h61
      exact absurd h61 (by decide)
    have htl : titleIssues p1.title = [⟨"Title Tag Too Long", Severity.medium⟩] := by
      unfold titleIssues
      rw [if_neg hne, if_pos (by omega)]
    have e2 : (seoMetaIssues p1.metaContents).filter
        (fun i => i.title == "Title Tag Too Long") = [] :=
      List.filter_eq_nil_iff.mpr fun a ha => by
        rcases seoMetaIssues_titles _ a ha with h | h <;> rw [h] <;> decide
    have e3 : (h1Issues p1.h1Count).filter
        (fun i => i.title == "Title Tag Too Long") = [] :=
      List.filter_eq_nil_iff.mpr fun a ha => by
        rcases h1Issues_titles _ a ha with h | h <;> rw [h] <;> decide
    rw [htl, e2, e3]
    simp
  · rw [seoScan_noFault, List.filter_append, List.filter_append]
    have htl : titleIssues p2.title = [⟨"Missing Title Tag", Severity.high⟩] := by
      rw [hempty]
      decide
    have e2 : (seoMetaIssues p2.metaContents).filter
        (fun i => i.title == "Missing Title Tag") = [] :=
      List.filter_eq_nil_iff.mpr fun a ha => by
        rcases seoMetaIssues_titles _ a ha with h | h <;> rw [h] <;> decide
    have e3 : (h1Issues p2.h1Count).filter
        (fun i => i.title == "Missing Title Tag") = [] :=
      List.filter_eq_nil_iff.mpr fun a ha => by
        rcases h1Issues_titles _ a ha with h | h <;> rw [h] <;> decide
    rw [htl, e2, e3]
    simp
  · rw [seoScan_noFault, List.filter_append, List.filter_append]
    have hh1 : h1Issues p3.h1Count = [] := by
      rw [hone]
      decide
    have e1 : (titleIssues p3.title).filter
        (fun i => i.title == "Missing H1 Tag" || i.title == "Multiple H1 Tags") = [] :=
      List.filter_eq_nil_iff.mpr fun a ha => by
        rcases titleIssues_titles _ a ha with h | h <;> rw [h] <;> decide
    have e2 : (seoMetaIssues p3.metaContents).filter
        (fun i => i.title == "Missing H1 Tag" || i.title == "Multiple H1 Tags") = [] :=
      List.filter_eq_nil_iff.mpr fun a ha => by
        rcases seoMetaIssues_titles _ a ha with h | h <;> rw [h] <;> decide
    rw [hh1, e1, e2]
    simp

theorem seo_title_h1_checks_witness :
    c8LongTitlePage.title.length = 61 ∧
      c8EmptyTitlePage.title = "" ∧
      c8OneH1Page.h1Count = 1 ∧
      ((seoScan c8LongTitlePage true noFault).issues.filter
          (fun i => i.title == "Title Tag Too Long") =
          [⟨"Title Tag Too Long", Severity.medium⟩] ∧
        (seoScan c8EmptyTitlePage true noFault).issues.filter
          (fun i => i.title == "Missing Title Tag") =
          [⟨"Missing Title Tag", Severity.high⟩] ∧
        (seoScan c8OneH1Page true noFault).issues.filter
          (fun i => i.title == "Missing H1 Tag" || i.title == "Multiple H1 Tags") =
          []) :=
  ⟨by decide, rfl, rfl,
    seo_title_h1_checks c8LongTitlePage c8EmptyTitlePage c8OneH1Page
      (by decide) rfl rfl⟩

/-! ## C9: the No HTTPS check -/

/-- Claim C9 counterexample: the code tests the literal prefix
url.startsWith("https"), not the URL scheme, so a URL whose scheme is
httpsevil — not https — and whose re-navigation succeeds produces no
No HTTPS issue at all. -/
theorem claim9_scheme_not_flagged :
    urlScheme "httpsevil://example.com" ≠ "https" ∧
      (securityScan "httpsevil://example.com" ⟨false, false⟩ true false).issues.filter
        (fun i => i.title == "No HTTPS") = [] := by
  decide

/-- C9 (amended): with the TestRun created and the re-navigation successful,
every URL that does not start with the literal string "https" (in particular
every http:// URL) yields exactly one high No HTTPS issue, regardless of
which response headers are present. -/
theorem security_no_https (url : String) (resp : SecurityResponse)
    (h : jsStartsWith url "https" = false) :
    (securityScan url resp true false).issues.filter
      (fun i => i.title == "No HTTPS") = [⟨"No HTTPS", Severity.high⟩] := by
  rcases resp with ⟨csp, xfo⟩
  rw [securityScan_noFault]
  unfold securityIssues
  rw [h]
  rcases csp <;> rcases xfo <;> decide

theorem security_no_https_witness :
    jsStartsWith "http://example.com" "https" = false ∧
      (securityScan "http://example.com" ⟨true, true⟩ true false).issues.filter
        (fun i => i.title == "No HTTPS") = [⟨"No HTTPS", Severity.high⟩] :=
  ⟨by decide, security_no_https "http://example.com" ⟨true, true⟩ (by decide)⟩

/-- C2 (amended): for the scan with exactly SEO and Security enabled on a
page with an empty title, no meta description, two h1 elements, served over
http with neither Content-Security-Policy nor X-Frame-Options, the SEO
module emits 2 high + 1 medium, the Security module 1 high + 2 medium
(3 high and 3 medium in total), and the summary's overall score equals
100 - (3*10 + 3*5) = 55. -/
theorem scenario_seo_security_score :
    (seoScan c2Page true noFault).issues.map (fun i => i.severity) =
        [.high, .high, .medium] ∧
      (securityScan c2Url ⟨false, false⟩ true false).issues.map (fun i => i.severity) =
        [.high, .medium, .medium] ∧
      mkSummary c2Tests c2Results =
        { totalIssues := 6, criticalIssues := 3, overallScore := 55,
          completedTests := 2, totalTests := 2 } := by
  decide

end QavoScanner
